import Mathlib

/-
  Verification of the Digital Bookshelf client-side book store
  (src/lib/store.ts) and two route handlers (the create-book endpoint
  and the recommendations endpoint), as a shallow embedding in Lean 4.
-/

namespace Bookshelf

/-- Reading status union type from `store.ts`: 'to-read' | 'reading' | 'finished'. -/
inductive ReadingStatus
  | toRead
  | reading
  | finished
deriving DecidableEq

/-- The string each `ReadingStatus` value denotes in the TypeScript source. -/
def statusText : ReadingStatus → String
  | .toRead => "to-read"
  | .reading => "reading"
  | .finished => "finished"

/-- View mode union type from `store.ts`: 'grid' | 'table'. -/
inductive ViewMode
  | grid
  | table
deriving DecidableEq

/-- The `Book` interface of src/lib/store.ts. Optional fields are `Option`s. -/
structure Book where
  id : String
  title : String
  author : String
  category : String
  cover_url : Option String := none
  reading_status : ReadingStatus
  created_at : String
  progress_percentage : Option Nat := none
  date_started : Option String := none
  date_finished : Option String := none
  reading_notes : Option String := none
deriving DecidableEq

/-- `Partial<Book>`: every field optionally present. A `none` field is a key
absent from the partial object; a `some` field is a key present with a value. -/
structure BookPatch where
  id : Option String := none
  title : Option String := none
  author : Option String := none
  category : Option String := none
  cover_url : Option (Option String) := none
  reading_status : Option ReadingStatus := none
  created_at : Option String := none
  progress_percentage : Option (Option Nat) := none
  date_started : Option (Option String) := none
  date_finished : Option (Option String) := none
  reading_notes : Option (Option String) := none
deriving DecidableEq

/-- The JavaScript object spread `{ ...book, ...updates }`: every key present
in `updates` overrides the corresponding field of `book`. -/
def applyPatch (book : Book) (u : BookPatch) : Book :=
  { id := u.id.getD book.id
    title := u.title.getD book.title
    author := u.author.getD book.author
    category := u.category.getD book.category
    cover_url := u.cover_url.getD book.cover_url
    reading_status := u.reading_status.getD book.reading_status
    created_at := u.created_at.getD book.created_at
    progress_percentage := u.progress_percentage.getD book.progress_percentage
    date_started := u.date_started.getD book.date_started
    date_finished := u.date_finished.getD book.date_finished
    reading_notes := u.reading_notes.getD book.reading_notes }

/-- The state held by `useBookStore` in src/lib/store.ts. -/
structure BookStore where
  books : List Book
  loading : Bool
  searchQuery : String
  selectedCategory : Option String
  selectedReadingStatus : Option String
  viewMode : ViewMode
  addingBook : Bool
  showAddModal : Bool
  showEditModal : Bool
  showDeleteModal : Bool
  bookToEdit : Option Book
  bookToDelete : Option Book

/-- The initial state passed to `create` in src/lib/store.ts. -/
def initialState : BookStore :=
  { books := []
    loading := false
    searchQuery := ""
    selectedCategory := none
    selectedReadingStatus := none
    viewMode := .grid
    addingBook := false
    showAddModal := false
    showEditModal := false
    showDeleteModal := false
    bookToEdit := none
    bookToDelete := none }

/-- `setBooks: (books) => set({ books })`. Zustand `set` merges the given
fields into the state, leaving the others unchanged. -/
def setBooks (books : List Book) (s : BookStore) : BookStore :=
  { s with books := books }

/-- `setLoading: (loading) => set({ loading })`. -/
def setLoading (loading : Bool) (s : BookStore) : BookStore :=
  { s with loading := loading }

/-- `setSearchQuery: (searchQuery) => set({ searchQuery })`. -/
def setSearchQuery (searchQuery : String) (s : BookStore) : BookStore :=
  { s with searchQuery := searchQuery }

/-- `setSelectedCategory: (selectedCategory) => set({ selectedCategory })`. -/
def setSelectedCategory (selectedCategory : Option String) (s : BookStore) : BookStore :=
  { s with selectedCategory := selectedCategory }

/-- `setSelectedReadingStatus: (selectedReadingStatus) => set({ selectedReadingStatus })`. -/
def setSelectedReadingStatus (selectedReadingStatus : Option String) (s : BookStore) : BookStore :=
  { s with selectedReadingStatus := selectedReadingStatus }

/-- `setViewMode: (viewMode) => set({ viewMode })`. -/
def setViewMode (viewMode : ViewMode) (s : BookStore) : BookStore :=
  { s with viewMode := viewMode }

/-- `setAddingBook: (addingBook) => set({ addingBook })`. -/
def setAddingBook (addingBook : Bool) (s : BookStore) : BookStore :=
  { s with addingBook := addingBook }

/-- `openAddModal: () => set({ showAddModal: true })`. -/
def openAddModal (s : BookStore) : BookStore :=
  { s with showAddModal := true }

/-- `closeAddModal: () => set({ showAddModal: false })`. -/
def closeAddModal (s : BookStore) : BookStore :=
  { s with showAddModal := false }

/-- `openEditModal: (book) => set({ showEditModal: true, bookToEdit: book })`. -/
def openEditModal (book : Book) (s : BookStore) : BookStore :=
  { s with showEditModal := true, bookToEdit := some book }

/-- `closeEditModal: () => set({ showEditModal: false, bookToEdit: null })`. -/
def closeEditModal (s : BookStore) : BookStore :=
  { s with showEditModal := false, bookToEdit := none }

/-- `openDeleteModal: (book) => set({ showDeleteModal: true, bookToDelete: book })`. -/
def openDeleteModal (book : Book) (s : BookStore) : BookStore :=
  { s with showDeleteModal := true, bookToDelete := some book }

/-- `closeDeleteModal: () => set({ showDeleteModal: false, bookToDelete: null })`. -/
def closeDeleteModal (s : BookStore) : BookStore :=
  { s with showDeleteModal := false, bookToDelete := none }

/-- `addBook: (book) => set((state) => ({ books: [book, ...state.books] }))`. -/
def addBook (book : Book) (s : BookStore) : BookStore :=
  { s with books := book :: s.books }

/-- `updateBook: (id, updates) => set((state) => ({ books: state.books.map(book =>
book.id === id ? { ...book, ...updates } : book) }))`. -/
def updateBook (id : String) (updates : BookPatch) (s : BookStore) : BookStore :=
  { s with books := s.books.map fun book =>
      if book.id = id then applyPatch book updates else book }

/-- `removeBook: (id) => set((state) => ({ books: state.books.filter(book =>
book.id !== id) }))`. -/
def removeBook (id : String) (s : BookStore) : BookStore :=
  { s with books := s.books.filter fun book => book.id != id }

/-- JavaScript `s.toLowerCase()`: lower-case every character. -/
def jsToLower (s : String) : String :=
  ⟨s.data.map Char.toLower⟩

/-- JavaScript `s.trim()`: drop whitespace from both ends. -/
def jsTrim (s : String) : String :=
  ⟨((s.data.dropWhile Char.isWhitespace).reverse.dropWhile Char.isWhitespace).reverse⟩

/-- JavaScript `haystack.includes(needle)` on strings: `needle` occurs as a
contiguous substring of `haystack` (the empty needle always matches). -/
def jsIncludes (haystack needle : String) : Bool :=
  decide (needle.data <:+: haystack.data)

/-- The `matchesCategory` predicate inside `getFilteredBooks`:
`selectedCategory === null || book.category === selectedCategory`. -/
def matchesCategory (selectedCategory : Option String) (book : Book) : Bool :=
  match selectedCategory with
  | none => true
  | some c => book.category == c

/-- The `matchesSearch` predicate inside `getFilteredBooks`:
`searchQuery === "" || book.title.toLowerCase().includes(searchQuery.toLowerCase())
|| book.author.toLowerCase().includes(searchQuery.toLowerCase())`. -/
def matchesSearch (searchQuery : String) (book : Book) : Bool :=
  searchQuery == "" ||
    jsIncludes (jsToLower book.title) (jsToLower searchQuery) ||
    jsIncludes (jsToLower book.author) (jsToLower searchQuery)

/-- The `matchesStatus` predicate inside `getFilteredBooks`:
`selectedReadingStatus === null || book.reading_status === selectedReadingStatus`. -/
def matchesStatus (selectedReadingStatus : Option String) (book : Book) : Bool :=
  match selectedReadingStatus with
  | none => true
  | some st => statusText book.reading_status == st

/-- `getFilteredBooks()` of src/lib/store.ts: a linear filter over the
collection combining the three predicates with logical AND. -/
def getFilteredBooks (s : BookStore) : List Book :=
  s.books.filter fun book =>
    matchesCategory s.selectedCategory book &&
    matchesSearch s.searchQuery book &&
    matchesStatus s.selectedReadingStatus book

/-- `[...new Set(xs)]` on a list of strings: distinct values in first-occurrence
order, as JavaScript Set iteration yields them. -/
def dedupFirst : List String → List String
  | [] => []
  | a :: l => a :: dedupFirst (l.filter fun x => x != a)
termination_by l => l.length
decreasing_by
  exact Nat.lt_succ_of_le (List.length_filter_le _ _)

/-- `getCategories()` of src/lib/store.ts:
`Array.from(new Set(books.map(book => book.category)))`. -/
def getCategories (s : BookStore) : List String :=
  dedupFirst (s.books.map fun book => book.category)

/-- The non-`books` portion of the store state, bundled as a tuple so frame
conditions can be stated as a single equality. -/
def transientState (s : BookStore) :
    Bool × String × Option String × Option String × ViewMode × Bool ×
    Bool × Bool × Bool × Option Book × Option Book :=
  (s.loading, s.searchQuery, s.selectedCategory, s.selectedReadingStatus,
   s.viewMode, s.addingBook, s.showAddModal, s.showEditModal, s.showDeleteModal,
   s.bookToEdit, s.bookToDelete)

/-! ### The create-book endpoint (`createBook` in the Express controller) -/

/-- JavaScript falsiness of an optional string request field: an absent key
(`undefined`/`null`) and the empty string are falsy. -/
def jsFalsy : Option String → Bool
  | none => true
  | some s => s == ""

/-- The request body read by `createBook`:
`const { title, author, category, cover_url } = req.body`. A `none` field is a
key absent from the body. -/
structure CreateRequest where
  title : Option String
  author : Option String
  category : Option String
  cover_url : Option String
deriving DecidableEq

/-- The row passed to the persistence collaborator's insert by `createBook`. -/
structure InsertFields where
  title : String
  author : String
  category : String
  cover_url : Option String
deriving DecidableEq

/-- The observable outcome of `createBook`: the HTTP status and the row sent to
the persistence collaborator, if any write was issued. -/
structure CreateResponse where
  status : Nat
  inserted : Option InsertFields
deriving DecidableEq

/-- The `createBook` handler. It rejects with 400 when
`!title || !author || !category`; otherwise it inserts the trimmed fields
(with `cover_url || null`) and answers 201, or 500 when the insert fails
(`dbFails` models the external insert throwing). -/
def createBook (req : CreateRequest) (dbFails : Bool) : CreateResponse :=
  if jsFalsy req.title || jsFalsy req.author || jsFalsy req.category then
    { status := 400, inserted := none }
  else
    let row : InsertFields :=
      { title := jsTrim (req.title.getD "")
        author := jsTrim (req.author.getD "")
        category := jsTrim (req.category.getD "")
        cover_url := match req.cover_url with
          | none => none
          | some c => if c == "" then none else some c }
    if dbFails then { status := 500, inserted := some row }
    else { status := 201, inserted := some row }

/-! ### The recommendations endpoint (`POST` in the Next.js route) -/

/-- One recommendation as returned by the recommendations route. -/
structure BookRecommendation where
  title : String
  author : String
  reason : String
  confidence : Nat
  genre : String
  cover_url : Option String := none
deriving DecidableEq

/-- JavaScript `s || d` for strings: the empty string is falsy. -/
def strOr (s d : String) : String :=
  if s == "" then d else s

/-- JavaScript `n || d` for numbers: zero is falsy. -/
def natOr (n d : Nat) : Nat :=
  if n == 0 then d else n

/-- `getFallbackRecommendations(preferredGenre)`: the hard-coded fallback
lists, keyed by genre with `fallbackBooks[preferredGenre] || fallbackBooks['General']`. -/
def getFallbackRecommendations (preferredGenre : String) : List BookRecommendation :=
  if preferredGenre == "Science" then
    [ { title := "Sapiens", author := "Yuval Noah Harari",
        reason := "A fascinating exploration of human history and development that combines science with engaging storytelling.",
        confidence := 8, genre := "Science" },
      { title := "The Immortal Life of Henrietta Lacks", author := "Rebecca Skloot",
        reason := "Combines medical science with human story, perfect for science enthusiasts who enjoy narrative non-fiction.",
        confidence := 7, genre := "Science" },
      { title := "Astrophysics for People in a Hurry", author := "Neil deGrasse Tyson",
        reason := "Makes complex astrophysics accessible and engaging, perfect for curious science readers.",
        confidence := 8, genre := "Science" },
      { title := "The Code Breaker", author := "Walter Isaacson",
        reason := "Fascinating biography of Jennifer Doudna and the CRISPR revolution, combining science with human story.",
        confidence := 8, genre := "Science" } ]
  else if preferredGenre == "Sports & Recreation" then
    [ { title := "Open", author := "Andre Agassi",
        reason := "An honest and compelling sports memoir that goes beyond tennis to explore personal struggles and triumphs.",
        confidence := 8, genre := "Sports" },
      { title := "The Boys in the Boat", author := "Daniel James Brown",
        reason := "An inspiring story of teamwork and perseverance, combining sports history with compelling narrative.",
        confidence := 8, genre := "Sports" },
      { title := "Moneyball", author := "Michael Lewis",
        reason := "Revolutionary look at baseball analytics that changed sports forever, engaging for all readers.",
        confidence := 9, genre := "Sports" },
      { title := "The Last Dance", author := "Michael Jordan",
        reason := "Inside look at basketball greatness and the mentality required for championship success.",
        confidence := 8, genre := "Sports" } ]
  else if preferredGenre == "Fiction" then
    [ { title := "The Seven Husbands of Evelyn Hugo", author := "Taylor Jenkins Reid",
        reason := "An engaging novel with complex characters and compelling storytelling that is widely loved.",
        confidence := 8, genre := "Fiction" },
      { title := "Where the Crawdads Sing", author := "Delia Owens",
        reason := "Beautiful coming-of-age story with mystery elements, perfect for literary fiction lovers.",
        confidence := 8, genre := "Fiction" },
      { title := "The Midnight Library", author := "Matt Haig",
        reason := "Thought-provoking novel about possibilities in life and second chances, emotionally resonant.",
        confidence := 8, genre := "Fiction" },
      { title := "Klara and the Sun", author := "Kazuo Ishiguro",
        reason := "Beautifully written exploration of love, consciousness, and what makes us human.",
        confidence := 8, genre := "Fiction" } ]
  else
    [ { title := "Educated", author := "Tara Westover",
        reason := "A powerful memoir about education and self-discovery that appeals to readers across all genres.",
        confidence := 9, genre := "Biography" },
      { title := "Becoming", author := "Michelle Obama",
        reason := "Inspiring memoir that combines personal story with historical insight, universally appealing.",
        confidence := 9, genre := "Biography" },
      { title := "The Alchemist", author := "Paulo Coelho",
        reason := "Timeless philosophical novel about following your dreams and finding your purpose.",
        confidence := 8, genre := "Philosophy" },
      { title := "Atomic Habits", author := "James Clear",
        reason := "Practical guide to building good habits and breaking bad ones, applicable to all areas of life.",
        confidence := 9, genre := "Self-Help" } ]

/-- A raw parsed recommendation object from the model's JSON, before the route
fills in defaults; the empty string / zero stand for absent or falsy fields. -/
structure RawRecommendation where
  title : String := ""
  author : String := ""
  reason : String := ""
  confidence : Nat := 0
  genre : String := ""
deriving DecidableEq

/-- The per-item default filling in the route:
`{ title: rec.title || 'Unknown Title', ... }`. -/
def normalizeRec (rec : RawRecommendation) : BookRecommendation :=
  { title := strOr rec.title "Unknown Title"
    author := strOr rec.author "Unknown Author"
    reason := strOr rec.reason "Recommended based on your reading history"
    confidence := natOr rec.confidence 7
    genre := strOr rec.genre "General"
    cover_url := none }

/-- The outcome of the external generation call and its JSON parse, as the
route's control flow distinguishes them: `unavailable` is any throw reaching
the outer catch (request body read fails, the chat-completion call fails, or
the response has no content); `notArray` is the inner catch (the content fails
to parse as JSON or is not an array); `array` is a successfully parsed array. -/
inductive AiOutcome
  | unavailable
  | notArray
  | array (recs : List RawRecommendation)
deriving DecidableEq

/-- The inputs the `POST` route reacts to: whether `OPENAI_API_KEY` is set,
the request body's books, the generation outcome, and the external cover
lookup (`getBookCover`, `none` when it finds no cover or fails). -/
structure PostEnv where
  apiKeyConfigured : Bool
  books : List Book
  ai : AiOutcome
  covers : String → String → Option String

/-- `{ ...rec, cover_url }` after awaiting `getBookCover(rec.title, rec.author)`. -/
def addCover (covers : String → String → Option String)
    (rec : BookRecommendation) : BookRecommendation :=
  { rec with cover_url := covers rec.title rec.author }

/-- The JSON body of a recommendations response. -/
structure RecBody where
  recommendations : List BookRecommendation
  completedBooks : Nat
  categories : List String
  totalBooks : Nat
  errorMsg : Option String
deriving DecidableEq

/-- Result of the `POST` route: a 500 error response (missing API key) or a
200 JSON body. -/
inductive PostResult
  | serverError (status : Nat) (error : String)
  | success (body : RecBody)
deriving DecidableEq

/-- The `POST` route of the recommendations endpoint. Returns 500 when the API
key is unset; on any throw reaching the outer catch, the 'General' fallback
list with covers and an error note; otherwise the parsed (or inner-fallback)
recommendations, default-filled, sliced to 4, with covers. -/
def POST (env : PostEnv) : PostResult :=
  if !env.apiKeyConfigured then
    .serverError 500 "OpenAI API key not configured"
  else
    match env.ai with
    | .unavailable =>
        let fallbackRecs := getFallbackRecommendations "General"
        .success
          { recommendations := fallbackRecs.map (addCover env.covers)
            completedBooks := 0
            categories := ["General"]
            totalBooks := 0
            errorMsg := some "Using fallback recommendations" }
    | .notArray =>
        let readBooks := env.books.filter fun book =>
          statusText book.reading_status == "finished"
        let categories := dedupFirst (env.books.map fun book => book.category)
        let fallbackGenre := strOr (categories.headD "") "Fiction"
        let recommendations := getFallbackRecommendations fallbackGenre
        .success
          { recommendations := ((recommendations.take 4).map (addCover env.covers))
            completedBooks := readBooks.length
            categories := categories
            totalBooks := env.books.length
            errorMsg := none }
    | .array recs =>
        let readBooks := env.books.filter fun book =>
          statusText book.reading_status == "finished"
        let categories := dedupFirst (env.books.map fun book => book.category)
        let recommendations := recs.map normalizeRec
        .success
          { recommendations := ((recommendations.take 4).map (addCover env.covers))
            completedBooks := readBooks.length
            categories := categories
            totalBooks := env.books.length
            errorMsg := none }

/-! ### Concrete sample data used by witnesses and counterexamples -/

/-- A sample book. -/
def dune : Book :=
  { id := "1", title := "Dune", author := "Frank Herbert", category := "Sci-Fi",
    reading_status := .toRead, created_at := "2024-01-01" }

/-- A second sample book with a distinct id. -/
def messiah : Book :=
  { id := "2", title := "Dune Messiah", author := "Frank Herbert", category := "Sci-Fi",
    reading_status := .reading, created_at := "2024-02-01" }

/-- A store holding the two sample books, all filters inactive. -/
def demoStore : BookStore := setBooks [dune, messiah] initialState

/-! ### Claim theorems for the Book Store -/

/-- The spec-side matching condition of `getFilteredBooks`: category equal to
the selected category (any when null), status string equal to the selected
status (any when null), and a case-insensitive substring match of the query
against title OR author (everything matches when the query is empty). -/
def specFilterMatch (s : BookStore) (book : Book) : Prop :=
  (∀ c, s.selectedCategory = some c → book.category = c) ∧
  (∀ st, s.selectedReadingStatus = some st → statusText book.reading_status = st) ∧
  (s.searchQuery = "" ∨
    jsIncludes (jsToLower book.title) (jsToLower s.searchQuery) = true ∨
    jsIncludes (jsToLower book.author) (jsToLower s.searchQuery) = true)

/-- The boolean filter used by `getFilteredBooks` decides `specFilterMatch`. -/
lemma filterPred_eq_true_iff (s : BookStore) (book : Book) :
    (matchesCategory s.selectedCategory book && matchesSearch s.searchQuery book &&
      matchesStatus s.selectedReadingStatus book) = true ↔ specFilterMatch s book := by
  unfold matchesCategory matchesSearch matchesStatus specFilterMatch
  cases s.selectedCategory <;> cases s.selectedReadingStatus <;>
    (simp [Bool.and_eq_true, Bool.or_eq_true, and_assoc]; try tauto)

/-- C1: `getFilteredBooks()` returns exactly the books of the collection that
satisfy all three active filters conjointly (category, status, and
case-insensitive search over title OR author; each filter passes everything
when null/empty), in the collection's original order; with both filters null
and an empty query it returns the full collection unchanged. -/
theorem getFilteredBooks_spec (s : BookStore) :
    (∀ book, book ∈ getFilteredBooks s ↔ book ∈ s.books ∧ specFilterMatch s book) ∧
    (getFilteredBooks s).Sublist s.books ∧
    (s.selectedCategory = none → s.selectedReadingStatus = none → s.searchQuery = "" →
      getFilteredBooks s = s.books) := by
  refine ⟨?_, List.filter_sublist _, ?_⟩
  · intro book
    simp only [getFilteredBooks, List.mem_filter]
    exact and_congr_right fun _ => filterPred_eq_true_iff s book
  · intro h1 h2 h3
    rw [getFilteredBooks]
    refine List.filter_eq_self.mpr ?_
    intro book _
    simp [matchesCategory, matchesSearch, matchesStatus, h1, h2, h3]

/-- Witness for C1 at a concrete store: all filters inactive returns the full
collection unchanged. -/
theorem getFilteredBooks_spec_witness :
    getFilteredBooks demoStore = demoStore.books :=
  (getFilteredBooks_spec demoStore).2.2 rfl rfl rfl

/-- C3: `addBook` produces a collection one longer whose first element is the
added book and whose remaining elements are the prior collection in its prior
order, regardless of the added book's `created_at` value. -/
theorem addBook_spec (s : BookStore) (book : Book) :
    (addBook book s).books.length = s.books.length + 1 ∧
    (addBook book s).books.head? = some book ∧
    (addBook book s).books.tail = s.books :=
  ⟨rfl, rfl, rfl⟩

/-- C7: modal actions are idempotent and target-clearing: closing yields
exactly the closed flag and a cleared target in any state, and opening always
sets the target to exactly the passed book, overwriting any prior target; the
same holds for the delete-modal pair. -/
theorem modal_actions_spec (s : BookStore) (b b2 : Book) :
    closeEditModal s = { s with showEditModal := false, bookToEdit := none } ∧
    closeEditModal (closeEditModal s) = closeEditModal s ∧
    (openEditModal b s).bookToEdit = some b ∧
    (openEditModal b s).showEditModal = true ∧
    (openEditModal b (openEditModal b2 s)).bookToEdit = some b ∧
    closeDeleteModal s = { s with showDeleteModal := false, bookToDelete := none } ∧
    closeDeleteModal (closeDeleteModal s) = closeDeleteModal s ∧
    (openDeleteModal b s).bookToDelete = some b ∧
    (openDeleteModal b s).showDeleteModal = true ∧
    (openDeleteModal b (openDeleteModal b2 s)).bookToDelete = some b :=
  ⟨rfl, rfl, rfl, rfl, rfl, rfl, rfl, rfl, rfl, rfl⟩

/-- C10: the book mutators change only the `books` field (the whole transient
state is unchanged), and the transient-state setters and every modal action
leave the books collection unchanged. -/
theorem frame_disjoint_spec (s : BookStore) (book : Book) (id : String) (u : BookPatch)
    (q : String) (c st : Option String) (m : ViewMode) :
    transientState (addBook book s) = transientState s ∧
    transientState (updateBook id u s) = transientState s ∧
    transientState (removeBook id s) = transientState s ∧
    (setSearchQuery q s).books = s.books ∧
    (setSelectedCategory c s).books = s.books ∧
    (setSelectedReadingStatus st s).books = s.books ∧
    (setViewMode m s).books = s.books ∧
    (openAddModal s).books = s.books ∧
    (closeAddModal s).books = s.books ∧
    (openEditModal book s).books = s.books ∧
    (closeEditModal s).books = s.books ∧
    (openDeleteModal book s).books = s.books ∧
    (closeDeleteModal s).books = s.books :=
  ⟨rfl, rfl, rfl, rfl, rfl, rfl, rfl, rfl, rfl, rfl, rfl, rfl, rfl⟩

/-- Field-by-field behaviour of the object spread in `updateBook`: every field
named in the partial update takes the given value, every field not named is
preserved. -/
def patchSpec (book : Book) (u : BookPatch) : Prop :=
  (u.id = none → (applyPatch book u).id = book.id) ∧
  (∀ v, u.id = some v → (applyPatch book u).id = v) ∧
  (u.title = none → (applyPatch book u).title = book.title) ∧
  (∀ v, u.title = some v → (applyPatch book u).title = v) ∧
  (u.author = none → (applyPatch book u).author = book.author) ∧
  (∀ v, u.author = some v → (applyPatch book u).author = v) ∧
  (u.category = none → (applyPatch book u).category = book.category) ∧
  (∀ v, u.category = some v → (applyPatch book u).category = v) ∧
  (u.cover_url = none → (applyPatch book u).cover_url = book.cover_url) ∧
  (∀ v, u.cover_url = some v → (applyPatch book u).cover_url = v) ∧
  (u.reading_status = none → (applyPatch book u).reading_status = book.reading_status) ∧
  (∀ v, u.reading_status = some v → (applyPatch book u).reading_status = v) ∧
  (u.created_at = none → (applyPatch book u).created_at = book.created_at) ∧
  (∀ v, u.created_at = some v → (applyPatch book u).created_at = v) ∧
  (u.progress_percentage = none →
    (applyPatch book u).progress_percentage = book.progress_percentage) ∧
  (∀ v, u.progress_percentage = some v → (applyPatch book u).progress_percentage = v) ∧
  (u.date_started = none → (applyPatch book u).date_started = book.date_started) ∧
  (∀ v, u.date_started = some v → (applyPatch book u).date_started = v) ∧
  (u.date_finished = none → (applyPatch book u).date_finished = book.date_finished) ∧
  (∀ v, u.date_finished = some v → (applyPatch book u).date_finished = v) ∧
  (u.reading_notes = none → (applyPatch book u).reading_notes = book.reading_notes) ∧
  (∀ v, u.reading_notes = some v → (applyPatch book u).reading_notes = v)

/-- The spread semantics hold for every book and every partial update. -/
lemma patchSpec_holds (book : Book) (u : BookPatch) : patchSpec book u := by
  unfold patchSpec
  and_intros <;>
    first
      | (intro h; simp [applyPatch, h])
      | (intro v h; simp [applyPatch, h])

/-- C2: when some record has the updated id, `updateBook` keeps the
collection's length, maps the matching records through the spread (named
fields set, unnamed fields preserved, per `patchSpec`), and leaves every
record with a different id at its position, unchanged and identical. -/
theorem updateBook_spec (s : BookStore) (id : String) (u : BookPatch)
    (h : ∃ book ∈ s.books, book.id = id) :
    (updateBook id u s).books.length = s.books.length ∧
    (∀ i : Nat, (updateBook id u s).books[i]? =
      (s.books[i]?).map fun book => if book.id = id then applyPatch book u else book) ∧
    (∀ book ∈ s.books, book.id ≠ id →
      ∀ i : Nat, s.books[i]? = some book → (updateBook id u s).books[i]? = some book) ∧
    (∀ book, patchSpec book u) := by
  refine ⟨by simp [updateBook], ?_, ?_, fun book => patchSpec_holds book u⟩
  · intro i
    simp [updateBook, List.getElem?_map]
  · intro book _ hbid i hi
    simp [updateBook, List.getElem?_map, hi, hbid]

/-- A partial update naming only the title. -/
def titlePatch : BookPatch := { title := some "Children of Dune" }

/-- Witness for C2 at a concrete store and update. -/
theorem updateBook_spec_witness :
    (updateBook "1" titlePatch demoStore).books.length = demoStore.books.length :=
  (updateBook_spec demoStore "1" titlePatch ⟨dune, by decide, rfl⟩).1

/-- Removing a present id from a collection with pairwise-distinct ids drops
exactly one record. -/
lemma filter_ne_id_length (id : String) (l : List Book)
    (hnodup : (l.map Book.id).Nodup) (hmem : ∃ book ∈ l, book.id = id) :
    (l.filter fun book => book.id != id).length + 1 = l.length := by
  induction l with
  | nil => simp at hmem
  | cons a t ih =>
    rw [List.map_cons, List.nodup_cons] at hnodup
    by_cases ha : a.id = id
    · have ht : ∀ book ∈ t, (book.id != id) = true := by
        intro b hbt
        have hne : b.id ≠ a.id := by
          intro hEq
          exact hnodup.1 (hEq ▸ List.mem_map_of_mem Book.id hbt)
        simp only [bne_iff_ne, ne_eq]
        exact fun hbid => hne (hbid.trans ha.symm)
      have hcond : (a.id != id) = false := by simp [ha]
      simp only [List.filter_cons, hcond, Bool.false_eq_true, if_false]
      rw [List.filter_eq_self.mpr ht]
      simp
    · have hcond : (a.id != id) = true := by simp [bne_iff_ne, ha]
      obtain ⟨b, hbmem, hbid⟩ := hmem
      have hbt : b ∈ t := by
        rcases List.mem_cons.mp hbmem with rfl | hmem2
        · exact absurd hbid ha
        · exact hmem2
      have hrec := ih hnodup.2 ⟨b, hbt, hbid⟩
      simp only [List.filter_cons, hcond, if_true, List.length_cons]
      omega

/-- C4: `removeBook` shortens the collection by exactly one when the id is
present (given the unique-ids invariant), leaves the whole state unchanged
when it is absent, and preserves the relative order of the remaining records. -/
theorem removeBook_spec (s : BookStore) (id : String)
    (hnodup : (s.books.map Book.id).Nodup) :
    ((∃ book ∈ s.books, book.id = id) →
      (removeBook id s).books.length + 1 = s.books.length) ∧
    ((∀ book ∈ s.books, book.id ≠ id) → removeBook id s = s) ∧
    (removeBook id s).books.Sublist s.books := by
  refine ⟨fun hmem => filter_ne_id_length id s.books hnodup hmem, ?_, List.filter_sublist _⟩
  intro habs
  have hfix : s.books.filter (fun book => book.id != id) = s.books :=
    List.filter_eq_self.mpr (by intro b hb; simpa [bne_iff_ne] using habs b hb)
  calc removeBook id s = { s with books := s.books } := by rw [removeBook, hfix]
    _ = s := rfl

/-- Witness for C4 at a concrete store. -/
theorem removeBook_spec_witness :
    (removeBook "1" demoStore).books.length + 1 = demoStore.books.length :=
  (removeBook_spec demoStore "1" (by decide)).1 ⟨dune, by decide, rfl⟩

/-- C5: `updateBook` with an id no record carries is a silent no-op: the whole
state after the call equals the state before it, and nothing fails. -/
theorem updateBook_missing_id (s : BookStore) (id : String) (u : BookPatch)
    (h : ∀ book ∈ s.books, book.id ≠ id) :
    updateBook id u s = s := by
  have hm : (s.books.map fun book => if book.id = id then applyPatch book u else book)
      = s.books := by
    have hpt : ∀ book ∈ s.books,
        (if book.id = id then applyPatch book u else book) = book := by
      intro b hb; rw [if_neg (h b hb)]
    rw [List.map_congr_left hpt]
    simp
  calc updateBook id u s = { s with books := s.books } := by rw [updateBook, hm]
    _ = s := rfl

/-- Witness for C5 at a concrete store and absent id. -/
theorem updateBook_missing_id_witness :
    updateBook "404" titlePatch demoStore = demoStore :=
  updateBook_missing_id demoStore "404" titlePatch (by decide)

/-- A partial update naming the id field. -/
def idPatch : BookPatch := { id := some "9" }

/-- Counterexample to C6 as stated: `updateBook` with a partial update that
names the id field rewrites the matching record's id ("1" becomes "9"). -/
theorem updateBook_rewrites_id_counterexample :
    demoStore.books.map Book.id = ["1", "2"] ∧
    (updateBook "1" idPatch demoStore).books.map Book.id = ["9", "2"] :=
  ⟨by decide, by decide⟩

/-- C6 amended: provided the partial update does not name the id field,
`updateBook` preserves every record's id; `addBook` leaves the ids of all
prior records in place, and `removeBook` only ever drops ids. -/
theorem id_immutable_amended (s : BookStore) (id : String) (u : BookPatch) (book : Book)
    (hu : u.id = none) :
    (updateBook id u s).books.map Book.id = s.books.map Book.id ∧
    ((addBook book s).books.map Book.id).tail = s.books.map Book.id ∧
    ((removeBook id s).books.map Book.id).Sublist (s.books.map Book.id) := by
  refine ⟨?_, rfl, List.Sublist.map Book.id (List.filter_sublist _)⟩
  simp only [updateBook, List.map_map]
  apply List.map_congr_left
  intro b _
  by_cases hb : b.id = id
  · simp [Function.comp, hb, applyPatch, hu]
  · simp [Function.comp, hb]

/-- Witness for the amended C6 at a concrete store and id-free update. -/
theorem id_immutable_amended_witness :
    (updateBook "1" titlePatch demoStore).books.map Book.id = demoStore.books.map Book.id :=
  (id_immutable_amended demoStore "1" titlePatch dune rfl).1

/-! ### Claim theorems for the route handlers -/

/-- A well-formed suggestion: non-empty title, author, justification text and
genre label, and a positive confidence score. -/
def wfRec (r : BookRecommendation) : Prop :=
  r.title ≠ "" ∧ r.author ≠ "" ∧ r.reason ≠ "" ∧ 0 < r.confidence ∧ r.genre ≠ ""

instance (r : BookRecommendation) : Decidable (wfRec r) := by
  unfold wfRec
  infer_instance

/-- Attaching a cover URL leaves the other suggestion fields intact. -/
lemma wfRec_addCover (covers : String → String → Option String)
    (r : BookRecommendation) (h : wfRec r) : wfRec (addCover covers r) := by
  simpa [wfRec, addCover] using h

/-- Default-filling always yields a well-formed suggestion. -/
lemma wfRec_normalizeRec (r : RawRecommendation) : wfRec (normalizeRec r) := by
  simp only [wfRec, normalizeRec, strOr, natOr]
  refine ⟨?_, ?_, ?_, ?_, ?_⟩ <;> split
  · decide
  · simp_all
  · decide
  · simp_all
  · decide
  · simp_all
  · decide
  · simp_all [Nat.pos_iff_ne_zero]
  · decide
  · simp_all

/-- Every hard-coded fallback suggestion is well-formed, whatever the genre. -/
lemma fallback_wf (g : String) : ∀ r ∈ getFallbackRecommendations g, wfRec r := by
  intro r hr
  unfold getFallbackRecommendations at hr
  repeat' split at hr
  all_goals
    simp only [List.mem_cons, List.not_mem_nil, or_false] at hr
  all_goals rcases hr with rfl | rfl | rfl | rfl <;> decide

/-- Every hard-coded fallback list has exactly 4 entries. -/
lemma fallback_length (g : String) : (getFallbackRecommendations g).length = 4 := by
  unfold getFallbackRecommendations
  repeat' split
  all_goals rfl

/-- C8 amended: provided the API key is configured and, when the generation
parses as an array, that array is non-empty, the caller receives a non-empty,
well-formed result of at most 4 suggestions; on a generation failure reaching
the outer catch the 'General' fallback list is returned with an error note,
and on a parse failure the fallback list keyed by the guessed preferred genre. -/
theorem POST_amended (env : PostEnv)
    (hkey : env.apiKeyConfigured = true)
    (hne : ∀ recs, env.ai = .array recs → recs ≠ []) :
    ∃ body, POST env = .success body ∧
      body.recommendations ≠ [] ∧
      body.recommendations.length ≤ 4 ∧
      (∀ r ∈ body.recommendations, wfRec r) ∧
      (env.ai = .unavailable →
        body.recommendations = (getFallbackRecommendations "General").map (addCover env.covers) ∧
        body.errorMsg = some "Using fallback recommendations") ∧
      (env.ai = .notArray →
        body.recommendations =
          ((getFallbackRecommendations
              (strOr ((dedupFirst (env.books.map fun book => book.category)).headD "")
                "Fiction")).take 4).map (addCover env.covers)) := by
  cases hai : env.ai with
  | unavailable =>
    refine ⟨{ recommendations := (getFallbackRecommendations "General").map (addCover env.covers),
              completedBooks := 0, categories := ["General"], totalBooks := 0,
              errorMsg := some "Using fallback recommendations" }, ?_, ?_, ?_, ?_, ?_, ?_⟩
    · simp [POST, hkey, hai]
    · refine List.length_pos.mp ?_
      rw [List.length_map, fallback_length "General"]
      norm_num
    · rw [List.length_map, fallback_length "General"]
    · intro r hr
      obtain ⟨r0, hr0, rfl⟩ := List.mem_map.mp hr
      exact wfRec_addCover _ _ (fallback_wf "General" r0 hr0)
    · exact fun _ => ⟨rfl, rfl⟩
    · intro hcontra
      cases hcontra
  | notArray =>
    refine ⟨{ recommendations :=
                ((getFallbackRecommendations
                    (strOr ((dedupFirst (env.books.map fun book => book.category)).headD "")
                      "Fiction")).take 4).map (addCover env.covers),
              completedBooks := (env.books.filter fun book =>
                statusText book.reading_status == "finished").length,
              categories := dedupFirst (env.books.map fun book => book.category),
              totalBooks := env.books.length,
              errorMsg := none }, ?_, ?_, ?_, ?_, ?_, ?_⟩
    · simp [POST, hkey, hai]
    · refine List.length_pos.mp ?_
      rw [List.length_map, List.length_take, fallback_length]
      norm_num
    · rw [List.length_map, List.length_take, fallback_length]
      norm_num
    · intro r hr
      obtain ⟨r0, hr0, rfl⟩ := List.mem_map.mp hr
      exact wfRec_addCover _ _ (fallback_wf _ r0 (List.mem_of_mem_take hr0))
    · intro hcontra
      cases hcontra
    · exact fun _ => rfl
  | array recs =>
    have hrecs : recs ≠ [] := hne recs hai
    refine ⟨{ recommendations := ((recs.map normalizeRec).take 4).map (addCover env.covers),
              completedBooks := (env.books.filter fun book =>
                statusText book.reading_status == "finished").length,
              categories := dedupFirst (env.books.map fun book => book.category),
              totalBooks := env.books.length,
              errorMsg := none }, ?_, ?_, ?_, ?_, ?_, ?_⟩
    · simp [POST, hkey, hai]
    · refine List.length_pos.mp ?_
      rw [List.length_map, List.length_take, List.length_map]
      exact Nat.lt_min.mpr ⟨by norm_num, List.length_pos.mpr hrecs⟩
    · rw [List.length_map, List.length_take, List.length_map]
      exact Nat.min_le_left _ _
    · intro r hr
      obtain ⟨r0, hr0, rfl⟩ := List.mem_map.mp hr
      obtain ⟨raw, _, rfl⟩ := List.mem_map.mp (List.mem_of_mem_take hr0)
      exact wfRec_addCover _ _ (wfRec_normalizeRec raw)
    · intro hcontra
      cases hcontra
    · intro hcontra
      cases hcontra

/-- The request environment with the API key unset. -/
def noKeyEnv : PostEnv :=
  { apiKeyConfigured := false, books := [], ai := .unavailable,
    covers := fun _ _ => none }

/-- Counterexample to C8 as stated: with the API key unconfigured the route
answers a 500 error response and no recommendations, not a fallback list. -/
theorem POST_noKey_counterexample :
    POST noKeyEnv = .serverError 500 "OpenAI API key not configured" := rfl

/-- A request environment whose generation call fails, API key configured. -/
def fallbackEnv : PostEnv :=
  { apiKeyConfigured := true, books := [], ai := .unavailable,
    covers := fun _ _ => none }

/-- Witness for the amended C8 at a concrete failing-generation environment. -/
theorem POST_amended_witness :
    ∃ body, POST fallbackEnv = .success body ∧ body.recommendations ≠ [] := by
  obtain ⟨body, h1, h2, _⟩ :=
    POST_amended fallbackEnv rfl (by intro recs h; cases h)
  exact ⟨body, h1, h2⟩

/-- C9 amended: the create-book endpoint rejects with 400, before issuing any
write, every request in which title, author, or category is absent or the
empty string; whitespace-only values pass the check, and on an accepted
request the row sent to the persistence collaborator carries the trimmed
inputs (the cover URL if truthy), with status 201 when the insert succeeds. -/
theorem createBook_spec (t a c : String) (cu : Option String) (dbFails : Bool)
    (ht : t ≠ "") (ha : a ≠ "") (hc : c ≠ "") :
    (∀ req : CreateRequest,
      (req.title = none ∨ req.title = some "" ∨ req.author = none ∨ req.author = some "" ∨
        req.category = none ∨ req.category = some "") →
      createBook req dbFails = { status := 400, inserted := none }) ∧
    (createBook { title := some t, author := some a, category := some c, cover_url := cu }
        false).status = 201 ∧
    (createBook { title := some t, author := some a, category := some c, cover_url := cu }
        dbFails).inserted =
      some { title := jsTrim t, author := jsTrim a, category := jsTrim c,
             cover_url := match cu with
               | none => none
               | some v => if v == "" then none else some v } := by
  refine ⟨?_, ?_, ?_⟩
  · intro req hbad
    rcases hbad with h1 | h1 | h1 | h1 | h1 | h1 <;> simp [createBook, jsFalsy, h1]
  · simp [createBook, jsFalsy, ht, ha, hc]
  · cases dbFails <;> simp [createBook, jsFalsy, ht, ha, hc]

/-- Witness for the amended C9 at a concrete accepted request. -/
theorem createBook_spec_witness :
    (createBook { title := some "  Dune ", author := some "Frank Herbert",
                  category := some "Sci-Fi", cover_url := none } false).status = 201 ∧
    (createBook { title := some "  Dune ", author := some "Frank Herbert",
                  category := some "Sci-Fi", cover_url := none } false).inserted =
      some { title := "Dune", author := "Frank Herbert", category := "Sci-Fi",
             cover_url := none } := by
  have h := createBook_spec "  Dune " "Frank Herbert" "Sci-Fi" none false
    (by decide) (by decide) (by decide)
  exact ⟨h.2.1, h.2.2.trans (by decide)⟩

/-- A create request whose title is whitespace only. -/
def wsRequest : CreateRequest :=
  { title := some "   ", author := some "Frank Herbert", category := some "Sci-Fi",
    cover_url := none }

/-- Counterexample to C9 as stated: a whitespace-only title passes the
validation, a write is issued with an empty stored title, and the response
status is 201, not 400. -/
theorem createBook_whitespace_counterexample :
    createBook wsRequest false =
      { status := 201,
        inserted := some { title := "", author := "Frank Herbert", category := "Sci-Fi",
                           cover_url := none } } := by
  decide

end Bookshelf
